import Mathlib

/-!
Verification of the client connection lifecycle of `alvr/client_core/src/connection.rs`.

The Rust source is shallowly embedded: the `connection_pipeline` function is
modelled as a pure function from an environment (the outcomes of its external
fallible operations and the packets received) to a final global state, a list
of observable events, and an outcome; each worker-thread loop is modelled as a
pure function from the per-iteration inputs (the value of the `IS_STREAMING`
flag at the loop head and the result of the blocking receive) to the list of
actions the loop body performs plus the reason the loop exited.

Machine integers are modelled as `Nat` with explicit `% 2 ^ 32` where the Rust
code performs an `as u32` cast; `f32`/`f64` values that the code merely passes
through are modelled as `Rat`.
-/

namespace AlvrConnection

/-- `INITIAL_MESSAGE` from `connection.rs` (a `concat!` of three lines). -/
def INITIAL_MESSAGE : String :=
  "Searching for streamer...\nOpen ALVR on your PC then click \"Trust\"\nnext to the client entry"

/-- `NETWORK_UNREACHABLE_MESSAGE` from `connection.rs`. -/
def NETWORK_UNREACHABLE_MESSAGE : String := "Cannot connect to the internet"

/-- `STREAM_STARTING_MESSAGE` from `connection.rs`. -/
def STREAM_STARTING_MESSAGE : String := "The stream will begin soon\nPlease wait..."

/-- `SERVER_RESTART_MESSAGE` from `connection.rs`. -/
def SERVER_RESTART_MESSAGE : String := "The streamer is restarting\nPlease wait..."

/-- `SERVER_DISCONNECTED_MESSAGE` from `connection.rs`. -/
def SERVER_DISCONNECTED_MESSAGE : String := "The streamer has disconnected."

/-- `RETRY_CONNECT_MIN_INTERVAL` in milliseconds (`Duration::from_secs(1)`). -/
def RETRY_CONNECT_MIN_INTERVAL_MS : Nat := 1000

/-- `MAX_UNREAD_PACKETS` from `connection.rs`. -/
def MAX_UNREAD_PACKETS : Nat := 10

/-!
## JSON values

Model of `serde_json::Value` as received in the negotiated-configuration blob.
`serde_json` numbers remember their parsed variant (unsigned integer, negative
integer, or float); `as_u64` succeeds only on the unsigned-integer variant
while `as_f64` succeeds on any number.
-/

/-- A `serde_json` number: unsigned integer, negative integer, or float
(float values abstracted as rationals). -/
inductive JNum where
  | uint (n : Nat)
  | nint (n : Int)
  | float (q : Rat)
  deriving DecidableEq, Repr

/-- A `serde_json::Value`. -/
inductive Json where
  | null
  | bool (b : Bool)
  | num (n : JNum)
  | str (s : String)
  | arr (elems : List Json)
  | obj (fields : List (String × Json))
  deriving Repr

/-- `serde_json::Value::as_f64`: any number yields its value, everything else
yields `none`. -/
def Json.asF64 : Json → Option Rat
  | .num (.uint n) => some n
  | .num (.nint n) => some n
  | .num (.float q) => some q
  | _ => none

/-- `serde_json::Value::as_u64`: only the unsigned-integer variant succeeds. -/
def Json.asU64 : Json → Option Nat
  | .num (.uint n) => some n
  | _ => none

/-- Deserializing a `u32` from a `serde_json::Value`: an unsigned integer in
`u32` range succeeds; negative integers, floats and non-numbers fail. -/
def deserializeU32 : Json → Option Nat
  | .num (.uint n) => if n < 2 ^ 32 then some n else none
  | _ => none

/-- Deserializing a `glam::UVec2` from a `serde_json::Value`: glam serializes
vectors as fixed-size sequences, so the value must be a 2-element array whose
elements each deserialize as `u32`. -/
def deserializeUVec2 : Json → Option (Nat × Nat)
  | .arr [jx, jy] =>
    match deserializeU32 jx, deserializeU32 jy with
    | some x, some y => some (x, y)
    | _, _ => none
  | _ => none

/-- The negotiated-configuration mapping (`HashMap<String, json::Value>`),
modelled as an association list with first-match lookup. -/
def NegotiatedConfig : Type := List (String × Json)

/-- `view_resolution` derivation (`connection.rs` lines 188-191):
`get("view_resolution").and_then(from_value).unwrap_or(UVec2::ZERO)`. -/
def negotiatedViewResolution (m : NegotiatedConfig) : Nat × Nat :=
  ((List.lookup "view_resolution" m).bind deserializeUVec2).getD (0, 0)

/-- `refresh_rate_hint` derivation (`connection.rs` lines 192-195):
`get("refresh_rate_hint").and_then(as_f64).unwrap_or(60.0)`. -/
def negotiatedRefreshRateHint (m : NegotiatedConfig) : Rat :=
  ((List.lookup "refresh_rate_hint" m).bind Json.asF64).getD 60

/-- `game_audio_sample_rate` derivation (`connection.rs` lines 196-199):
`get("game_audio_sample_rate").and_then(as_u64).unwrap_or(44100) as u32`. -/
def negotiatedGameAudioSampleRate (m : NegotiatedConfig) : Nat :=
  (((List.lookup "game_audio_sample_rate" m).bind Json.asU64).getD 44100) % 2 ^ 32

/-!
## Control packets
-/

/-- `ServerControlPacket` (from `alvr_packets`); only the variants that
`connection.rs` matches on are distinguished, the rest are collapsed into
`otherVariant` (payloads are not needed by any claim and are abstracted). -/
inductive ServerControlPacket where
  | startStream
  | initializeDecoder
  | restarting
  | keepAlive
  | otherVariant
  deriving DecidableEq, Repr

/-- Outcome of the single control-packet `match` at `connection.rs`
lines 221-241. -/
inductive FirstPacketOutcome where
  | proceed
  | cleanReturn (hudMessage : String)
  deriving DecidableEq, Repr

/-- The `match control_receiver.recv(HANDSHAKE_ACTION_TIMEOUT)` at
`connection.rs` lines 221-241.  A receive error of any kind is modelled as
`none`; the code treats all errors uniformly. -/
def handleFirstPacket : Option ServerControlPacket → FirstPacketOutcome
  | some .startStream => .proceed
  | some .restarting => .cleanReturn SERVER_RESTART_MESSAGE
  | none => .cleanReturn SERVER_DISCONNECTED_MESSAGE
  | some _ => .cleanReturn "Unexpected packet"

/-!
## Worker-thread loops

Each worker is a loop `while IS_STREAMING.value() { ... recv ... }`.  A run is
driven by the list of loop iterations; each iteration supplies the value the
`IS_STREAMING` flag had when the loop condition was checked, and the result of
the bounded-timeout receive.  The run returns the trace of actions performed
and the reason the loop ended (`ranOut` means the iteration list was exhausted
with the loop still spinning).
-/

/-- An observable action of a worker-loop body.  `latch old new` records an
assignment to the video worker's `stream_corrupted` local (ghost event:
`old` is the value it held, `new` the value assigned). -/
inductive TEntry where
  | packetMeta (isIdr hadLoss : Bool)
  | statsReported
  | latch (old new : Bool)
  | requestIdr
  | pushed (isIdr : Bool)
  | saturatedEvt
  | hapticsEvent
  | createDecoder
  | hud (msg : String)
  | firedNotifier
  deriving DecidableEq, Repr

/-- Why a worker loop ended. -/
inductive WorkerExit where
  | streamingOff
  | fatalTransport
  | parseFail
  | restartExit
  | ranOut
  deriving DecidableEq, Repr

/-- One received video packet: IDR flag and packet-loss flag from the header,
whether `data.get()` succeeds, and whether `decoder::push_nal` would report
saturation (return `false`) if this packet were pushed. -/
structure VideoPkt where
  isIdr : Bool
  hadLoss : Bool
  getOk : Bool
  saturates : Bool
  deriving DecidableEq, Repr

/-- Result of `video_receiver.recv(STREAMING_RECV_TIMEOUT)`. -/
inductive VideoStep where
  | pkt (p : VideoPkt)
  | tryAgain
  | fatal
  deriving DecidableEq, Repr

/-- One iteration of the video worker loop. -/
structure VideoIter where
  streaming : Bool
  step : VideoStep
  deriving DecidableEq, Repr

/-- The body of the video worker loop for one successfully received and parsed
packet (`connection.rs` lines 312-339), given the `avoid_video_glitching`
setting and the current `stream_corrupted` value.  Returns the new
`stream_corrupted` value and the trace of the body. -/
def videoProcessPacket (avoid corrupted : Bool) (p : VideoPkt) :
    Bool × List TEntry :=
  let head := [TEntry.packetMeta p.isIdr p.hadLoss, TEntry.statsReported]
  let step1 :=
    if p.isIdr then (false, [TEntry.latch corrupted false])
    else if p.hadLoss then
      (true, [TEntry.latch corrupted true, TEntry.requestIdr])
    else (corrupted, ([] : List TEntry))
  let c1 := step1.1
  let step2 :=
    if !c1 || !avoid then
      if p.saturates then
        (true, [TEntry.pushed p.isIdr, TEntry.saturatedEvt,
                TEntry.latch c1 true, TEntry.requestIdr])
      else (c1, [TEntry.pushed p.isIdr])
    else (c1, [TEntry.requestIdr])
  (step2.1, head ++ step1.2 ++ step2.2)

/-- The video worker loop (`connection.rs` lines 300-341), threading the
`stream_corrupted` local through the iterations. -/
def videoRunAux (avoid : Bool) : Bool → List VideoIter → List TEntry × WorkerExit
  | _, [] => ([], .ranOut)
  | corrupted, it :: rest =>
    if it.streaming then
      match it.step with
      | .tryAgain => videoRunAux avoid corrupted rest
      | .fatal => ([], .fatalTransport)
      | .pkt p =>
        if p.getOk then
          let body := videoProcessPacket avoid corrupted p
          let tail := videoRunAux avoid body.1 rest
          (body.2 ++ tail.1, tail.2)
        else ([], .parseFail)
    else ([], .streamingOff)

/-- The video worker thread: `stream_corrupted` starts `false`. -/
def videoRun (avoid : Bool) (iters : List VideoIter) : List TEntry × WorkerExit :=
  videoRunAux avoid false iters

/-- Result of `haptics_receiver.recv(STREAMING_RECV_TIMEOUT)`: a packet whose
`get_header()` succeeds or fails, a timeout, or a fatal error. -/
inductive HapticsStep where
  | pkt (headerOk : Bool)
  | tryAgain
  | fatal
  deriving DecidableEq, Repr

/-- One iteration of the haptics worker loop. -/
structure HapticsIter where
  streaming : Bool
  step : HapticsStep
  deriving DecidableEq, Repr

/-- The haptics receive worker loop (`connection.rs` lines 387-405). -/
def hapticsRun : List HapticsIter → List TEntry × WorkerExit
  | [] => ([], .ranOut)
  | it :: rest =>
    if it.streaming then
      match it.step with
      | .tryAgain => hapticsRun rest
      | .fatal => ([], .fatalTransport)
      | .pkt ok =>
        if ok then
          let tail := hapticsRun rest
          (TEntry.hapticsEvent :: tail.1, tail.2)
        else ([], .parseFail)
    else ([], .streamingOff)

/-- Result of `control_receiver.recv(STREAMING_RECV_TIMEOUT)`. -/
inductive CtrlRecvStep where
  | pkt (p : ServerControlPacket)
  | tryAgain
  | fatal
  deriving DecidableEq, Repr

/-- One iteration of the control receive worker loop. -/
structure CtrlRecvIter where
  streaming : Bool
  step : CtrlRecvStep
  deriving DecidableEq, Repr

/-- The control receive worker loop (`connection.rs` lines 458-488). -/
def controlRecvRun : List CtrlRecvIter → List TEntry × WorkerExit
  | [] => ([], .ranOut)
  | it :: rest =>
    if it.streaming then
      match it.step with
      | .pkt .initializeDecoder =>
        let tail := controlRecvRun rest
        (TEntry.createDecoder :: tail.1, tail.2)
      | .pkt .restarting =>
        ([TEntry.hud SERVER_RESTART_MESSAGE, TEntry.firedNotifier], .restartExit)
      | .pkt _ => controlRecvRun rest
      | .tryAgain => controlRecvRun rest
      | .fatal =>
        ([TEntry.hud SERVER_DISCONNECTED_MESSAGE, TEntry.firedNotifier],
         .fatalTransport)
    else ([], .streamingOff)

/-!
## The connection pipeline

`connection_pipeline` is modelled as a pure function from an environment (the
results of its external fallible operations, in program order) to a result:
the final value of the process-wide shared state it touches, the list of
observable events it emitted, and how it exited.
-/

/-- Parameters of the `StatisticsManager` installed at `connection.rs`
lines 207-215: history size, nominal frame duration `1 / refresh_rate_hint`
(as a rational; `Duration::from_secs_f32` abstracted), and the SteamVR
pipeline-frames figure (0 when controllers are disabled). -/
structure SMParams where
  historySize : Nat
  frameDuration : Rat
  pipelineFrames : Rat
  deriving DecidableEq, Repr

/-- The process-wide mutable slots and flags that `connection_pipeline`
touches.  Boolean fields record whether the corresponding `Mutex<Option<_>>`
slot is occupied. -/
structure GlobalState where
  isStreaming : Bool
  controlSender : Bool
  logChannelSender : Bool
  trackingSender : Bool
  statisticsSender : Bool
  statisticsManager : Option SMParams
  disconnectNotifier : Bool
  deriving DecidableEq, Repr

/-- The shared state between sessions: everything empty. -/
def GlobalState.initial : GlobalState :=
  { isStreaming := false
    controlSender := false
    logChannelSender := false
    trackingSender := false
    statisticsSender := false
    statisticsManager := none
    disconnectNotifier := false }

/-- The seven worker threads spawned by `connection_pipeline`. -/
inductive WorkerId where
  | videoRecv
  | gameAudio
  | microphone
  | hapticsRecv
  | controlSend
  | controlRecv
  | streamRecv
  deriving DecidableEq, Repr

/-- Events pushed to `EVENT_QUEUE` that the model tracks. -/
inductive QueueEvent where
  | streamingStarted (viewResolution : Nat × Nat) (refreshRateHint : Rat)
  | streamingStopped
  deriving DecidableEq, Repr

/-- Observable events of a `connection_pipeline` run, in program order. -/
inductive Event where
  | hud (msg : String)
  | sleepMs (n : Nat)
  | queued (e : QueueEvent)
  | spawn (w : WorkerId)
  | join (w : WorkerId)
  deriving DecidableEq, Repr

/-- How `connection_pipeline` exited: `ok` is `Ok(())`, `err` is a
short-circuit `Err` (surfaced by `connection_lifecycle_loop` as a
"Connection error" HUD message), `panicked` is an unwind (`unwrap` failure),
`diverged` means the modelled iteration list for the discovery loop ran out
while the loop was still spinning. -/
inductive Outcome where
  | ok
  | err
  | panicked
  | diverged
  deriving DecidableEq, Repr

/-- Result of a modelled `connection_pipeline` run. -/
structure PipelineResult where
  state : GlobalState
  events : List Event
  outcome : Outcome
  deriving DecidableEq, Repr

/-- One iteration of the discovery loop (`connection.rs` lines 120-143):
the `IS_ALIVE` value at the loop head, whether `announcer_socket.broadcast()`
succeeds, and whether `ProtoControlSocket::connect_to` succeeds. -/
structure DiscStep where
  alive : Bool
  broadcastOk : Bool
  connectOk : Bool
  deriving DecidableEq, Repr

/-- Outcome of the discovery loop: either the whole function returns, or a
control socket is obtained and the pipeline continues. -/
inductive DiscOutcome where
  | exitFn (events : List Event) (out : Outcome)
  | connected (events : List Event)
  deriving DecidableEq, Repr

/-- The discovery loop of `connection_pipeline` (`connection.rs`
lines 120-143). -/
def discoveryLoop : List DiscStep → DiscOutcome
  | [] => .exitFn [] .diverged
  | s :: rest =>
    if !s.alive then .exitFn [] .ok
    else if !s.broadcastOk then
      .exitFn
        [Event.hud NETWORK_UNREACHABLE_MESSAGE,
         Event.sleepMs RETRY_CONNECT_MIN_INTERVAL_MS,
         Event.hud INITIAL_MESSAGE] .ok
    else if s.connectOk then .connected []
    else discoveryLoop rest

/-- The fields of the effective `Settings` that `connection_pipeline` reads
(produced by `session_desc.to_settings()`, which lives outside this crate and
is therefore an oracle input). -/
structure Settings where
  statisticsHistorySize : Nat
  controllersEnabled : Bool
  steamvrPipelineFrames : Rat
  avoidVideoGlitching : Bool
  gameAudioEnabled : Bool
  micEnabled : Bool
  logReportLevelEnabled : Bool
  deriving DecidableEq, Repr

/-- The `StreamConfigPacket` as the pipeline consumes it: whether
`json::from_str(&session)` succeeds, whether `merge_from_json` succeeds, the
resulting effective settings, and the parse result of the negotiated blob
(`none` when it is not valid JSON for `HashMap<String, Value>`). -/
structure ConfigPacket where
  sessionParsesOk : Bool
  mergeOk : Bool
  settings : Settings
  negotiated : Option NegotiatedConfig

/-- Environment of one `connection_pipeline` run: results of every external
fallible operation, in program order. -/
structure Env where
  announcerNewOk : Bool
  listenerOk : Bool
  discovery : List DiscStep
  micSampleRateOk : Bool
  sendAcceptedOk : Bool
  configPacket : Option ConfigPacket
  splitOk : Bool
  firstPacket : Option ServerControlPacket
  streamBuilderOk : Bool
  sendStreamReadyOk : Bool
  acceptStreamOk : Bool
  gameAudioDeviceOk : Bool
  micDeviceOk : Bool

/-- The session drop guard (`DropGuard` at `connection.rs` lines 149-155):
on every exit path after its installation — normal return, `?` error return,
or unwind — the disconnect notifier slot is cleared. -/
def dropGuard (s : GlobalState) : GlobalState :=
  { s with disconnectNotifier := false }

/-- The `StatisticsManager::new` parameters derived at `connection.rs`
lines 207-215. -/
def smParams (st : Settings) (refreshRateHint : Rat) : SMParams :=
  { historySize := st.statisticsHistorySize
    frameDuration := 1 / refreshRateHint
    pipelineFrames := if st.controllersEnabled then st.steamvrPipelineFrames else 0 }

/-- Shallow embedding of `connection_pipeline` (`connection.rs`
lines 110-537), from the initial shared state `s0` and the environment to the
final shared state, emitted events, and outcome.

The committed tail of the function (after `IS_STREAMING.set(true)`) blocks on
`disconnect_receiver.recv()` and then tears down; the blocking receive always
returns (`Ok` or, when every sender was dropped, `Err`, both accepted via
`.ok()`), so the model proceeds directly to teardown. -/
def connectionPipeline (s0 : GlobalState) (env : Env) : PipelineResult :=
  if !env.announcerNewOk then ⟨s0, [], .err⟩
  else if !env.listenerOk then ⟨s0, [], .err⟩
  else
    match discoveryLoop env.discovery with
    | .exitFn evs out => ⟨s0, evs, out⟩
    | .connected evs =>
      -- lines 146-155: install the disconnect notifier, then the DropGuard
      let s1 := { s0 with disconnectNotifier := true }
      -- line 157-160: AudioDevice::new_input(None).unwrap().input_sample_rate().unwrap()
      if !env.micSampleRateOk then ⟨dropGuard s1, evs, .panicked⟩
      -- lines 162-173: send ConnectionAccepted
      else if !env.sendAcceptedOk then ⟨dropGuard s1, evs, .err⟩
      else
        -- lines 174-175: recv::<StreamConfigPacket>
        match env.configPacket with
        | none => ⟨dropGuard s1, evs, .err⟩
        | some cp =>
          -- lines 177-183: parse and merge the session blob
          if !cp.sessionParsesOk then ⟨dropGuard s1, evs, .err⟩
          else if !cp.mergeOk then ⟨dropGuard s1, evs, .err⟩
          else
            -- lines 185-186: parse the negotiated blob
            match cp.negotiated with
            | none => ⟨dropGuard s1, evs, .err⟩
            | some neg =>
              -- lines 188-199: per-field negotiated values
              let viewRes := negotiatedViewResolution neg
              let refresh := negotiatedRefreshRateHint neg
              -- lines 207-215: install a fresh StatisticsManager
              let s2 := { s1 with statisticsManager := some (smParams cp.settings refresh) }
              -- lines 217-219: split the control socket
              if !env.splitOk then ⟨dropGuard s2, evs, .err⟩
              else
                -- lines 221-241: the single control packet
                match handleFirstPacket env.firstPacket with
                | .cleanReturn msg => ⟨dropGuard s2, evs ++ [Event.hud msg], .ok⟩
                | .proceed =>
                  let evs := evs ++ [Event.hud STREAM_STARTING_MESSAGE]
                  -- lines 243-250: listen_for_server
                  if !env.streamBuilderOk then ⟨dropGuard s2, evs, .err⟩
                  -- lines 252-256: send StreamReady
                  else if !env.sendStreamReadyOk then
                    ⟨dropGuard s2, evs ++ [Event.hud SERVER_DISCONNECTED_MESSAGE], .ok⟩
                  -- lines 258-263: accept_from_server
                  else if !env.acceptStreamOk then ⟨dropGuard s2, evs, .err⟩
                  else
                    -- lines 283-288: the commit point
                    let s3 := { s2 with
                      isStreaming := true
                      controlSender := true
                      trackingSender := true
                      statisticsSender := true }
                    -- lines 290-296: log mirroring
                    let s4 :=
                      if cp.settings.logReportLevelEnabled then
                        { s3 with logChannelSender := true }
                      else s3
                    -- line 298: streaming-started event; line 300: video worker
                    let evs := evs ++
                      [Event.queued (QueueEvent.streamingStarted viewRes refresh),
                       Event.spawn WorkerId.videoRecv]
                    -- lines 343-358: game audio (BUG: fallible `?` after commit)
                    if cp.settings.gameAudioEnabled && !env.gameAudioDeviceOk then
                      ⟨dropGuard s4, evs, .err⟩
                    else
                      let evs := evs ++ [Event.spawn WorkerId.gameAudio]
                      -- lines 360-385: microphone (BUG: fallible `?` after commit)
                      if cp.settings.micEnabled && !env.micDeviceOk then
                        ⟨dropGuard s4, evs, .err⟩
                      else
                        let evs := evs ++
                          [Event.spawn WorkerId.microphone,
                           Event.spawn WorkerId.hapticsRecv,
                           Event.spawn WorkerId.controlSend,
                           Event.spawn WorkerId.controlRecv,
                           Event.spawn WorkerId.streamRecv]
                        -- line 510: block on the disconnect notifier
                        -- lines 512-516: unset streaming and clear slots
                        let s5 := { s4 with
                          isStreaming := false
                          controlSender := false
                          logChannelSender := false
                          trackingSender := false
                          statisticsSender := false }
                        -- lines 518-534: stopped event and joins
                        let evs := evs ++
                          [Event.queued QueueEvent.streamingStopped,
                           Event.join WorkerId.videoRecv,
                           Event.join WorkerId.gameAudio,
                           Event.join WorkerId.microphone,
                           Event.join WorkerId.hapticsRecv,
                           Event.join WorkerId.controlSend,
                           Event.join WorkerId.controlRecv,
                           Event.join WorkerId.streamRecv]
                        ⟨dropGuard s5, evs, .ok⟩

/-- The supervisor's handling of a session result (`connection_lifecycle_loop`,
`connection.rs` lines 93-107): an `Err` from `connection_pipeline` is surfaced
as a "Connection error" HUD message; `Ok` is not. -/
def supervisorShowsConnectionError (out : Outcome) : Bool :=
  out == Outcome.err

/-!
## Helper lemmas and concrete environments
-/

/-- The discovery loop emits no events on the path that obtains a control
socket: every event-producing branch returns from the function instead. -/
theorem discovery_connected_nil (l : List DiscStep) :
    ∀ evs : List Event, discoveryLoop l = .connected evs → evs = [] := by
  induction l with
  | nil =>
    intro evs h
    simp [discoveryLoop] at h
  | cons s rest ih =>
    intro evs h
    cases ha : s.alive <;> cases hb : s.broadcastOk <;> cases hc : s.connectOk <;>
      simp [discoveryLoop, ha, hb, hc] at h
    all_goals first
      | exact h.symm
      | exact h
      | exact ih evs h

/-- A benign settings value used for concrete runs. -/
def sampleSettings : Settings :=
  { statisticsHistorySize := 256
    controllersEnabled := false
    steamvrPipelineFrames := 0
    avoidVideoGlitching := true
    gameAudioEnabled := false
    micEnabled := false
    logReportLevelEnabled := false }

/-- An environment in which every external operation succeeds, discovery
connects on the first iteration, and the server sends `StartStream`;
parameterized by the effective settings and the negotiated mapping. -/
def happyEnv (st : Settings) (neg : NegotiatedConfig) : Env :=
  { announcerNewOk := true
    listenerOk := true
    discovery := [⟨true, true, true⟩]
    micSampleRateOk := true
    sendAcceptedOk := true
    configPacket := some ⟨true, true, st, some neg⟩
    splitOk := true
    firstPacket := some .startStream
    streamBuilderOk := true
    sendStreamReadyOk := true
    acceptStreamOk := true
    gameAudioDeviceOk := true
    micDeviceOk := true }

/-- Settings with game audio enabled. -/
def gaBugSettings : Settings :=
  { sampleSettings with gameAudioEnabled := true }

/-- Environment in which the session reaches the commit point with game audio
enabled, and `AudioDevice::new_output` then fails. -/
def gaBugEnv : Env :=
  { happyEnv gaBugSettings [] with gameAudioDeviceOk := false }

/-- Settings with only the microphone enabled. -/
def micBugSettings : Settings :=
  { sampleSettings with micEnabled := true }

/-- Environment in which the session reaches the commit point with the
microphone enabled, and `AudioDevice::new_input` then fails. -/
def micBugEnv : Env :=
  { happyEnv micBugSettings [] with micDeviceOk := false }

/-!
## Trace scans for the video worker claims

`c4Entry` tracks, across a worker trace, whether since the last IDR packet
(or the session start) no received packet carried a loss flag and no decoder
saturation occurred.  `c5Entry` tracks whether a `false → true` transition of
the `stream_corrupted` latch has happened with no `RequestIdr` sent since.
-/

/-- One step of the C4 scan: `clean` means no loss flag and no decoder
saturation since the last IDR packet (or the session start). -/
def c4Entry (clean : Bool) : TEntry → Bool
  | .packetMeta isIdr hadLoss => if isIdr then true else clean && !hadLoss
  | .saturatedEvt => false
  | _ => clean

/-- The per-entry C4 condition: a `pushed` entry must be an IDR, or occur
with glitch avoidance off, or occur while the stream is clean. -/
def c4PushOk (avoid clean : Bool) : TEntry → Bool
  | .pushed isIdr => isIdr || !avoid || clean
  | _ => true

/-- The C4 trace check: every `pushed` entry satisfies `c4PushOk` at the scan
state reached before it. -/
def c4Check (avoid : Bool) : Bool → List TEntry → Bool
  | _, [] => true
  | clean, e :: rest => c4PushOk avoid clean e && c4Check avoid (c4Entry clean e) rest

/-- One step of the C5 scan: `pending` means the `stream_corrupted` latch went
`false → true` and no `RequestIdr` has been sent since. -/
def c5Entry (pending : Bool) : TEntry → Bool
  | .latch oldV newV => if !oldV && newV then true else pending
  | .requestIdr => false
  | _ => pending

/-- The per-entry C5 condition: a `pushed` entry may not occur while a latch
transition is still awaiting its `RequestIdr`. -/
def c5PushOk (pending : Bool) : TEntry → Bool
  | .pushed _ => !pending
  | _ => true

/-- The C5 trace check: every `pushed` entry satisfies `c5PushOk` at the scan
state reached before it. -/
def c5Check : Bool → List TEntry → Bool
  | _, [] => true
  | pending, e :: rest => c5PushOk pending e && c5Check (c5Entry pending e) rest

theorem c4Check_append (avoid : Bool) (xs ys : List TEntry) :
    ∀ clean, c4Check avoid clean (xs ++ ys) =
      (c4Check avoid clean xs &&
        c4Check avoid (List.foldl c4Entry clean xs) ys) := by
  induction xs with
  | nil => intro clean; simp [c4Check]
  | cons e rest ih =>
    intro clean
    simp [c4Check, ih, Bool.and_assoc]

theorem c5Check_append (xs ys : List TEntry) :
    ∀ pending, c5Check pending (xs ++ ys) =
      (c5Check pending xs && c5Check (List.foldl c5Entry pending xs) ys) := by
  induction xs with
  | nil => intro pending; simp [c5Check]
  | cons e rest ih =>
    intro pending
    simp [c5Check, ih, Bool.and_assoc]

theorem c4_pp_check (avoid c isIdr hadLoss gOk sat : Bool) :
    c4Check avoid (!c)
      (videoProcessPacket avoid c ⟨isIdr, hadLoss, gOk, sat⟩).2 = true := by
  cases avoid <;> cases c <;> cases isIdr <;> cases hadLoss <;> cases sat <;> rfl

theorem c4_pp_state (avoid c isIdr hadLoss gOk sat : Bool) :
    List.foldl c4Entry (!c)
        (videoProcessPacket avoid c ⟨isIdr, hadLoss, gOk, sat⟩).2 =
      !(videoProcessPacket avoid c ⟨isIdr, hadLoss, gOk, sat⟩).1 := by
  cases avoid <;> cases c <;> cases isIdr <;> cases hadLoss <;> cases sat <;> rfl

theorem c5_pp_check (avoid c isIdr hadLoss gOk sat : Bool) :
    c5Check false (videoProcessPacket avoid c ⟨isIdr, hadLoss, gOk, sat⟩).2
      = true := by
  cases avoid <;> cases c <;> cases isIdr <;> cases hadLoss <;> cases sat <;> rfl

theorem c5_pp_state (avoid c isIdr hadLoss gOk sat : Bool) :
    List.foldl c5Entry false
        (videoProcessPacket avoid c ⟨isIdr, hadLoss, gOk, sat⟩).2 = false := by
  cases avoid <;> cases c <;> cases isIdr <;> cases hadLoss <;> cases sat <;> rfl

/-- Invariant of the video worker loop: its whole trace passes the C4 scan,
where the scan's `clean` state stays the negation of `stream_corrupted`. -/
theorem c4_invariant (avoid : Bool) (iters : List VideoIter) :
    ∀ c, c4Check avoid (!c) (videoRunAux avoid c iters).1 = true := by
  induction iters with
  | nil => intro c; rfl
  | cons it rest ih =>
    intro c
    cases hstr : it.streaming
    · simp [videoRunAux, hstr, c4Check]
    · cases hstep : it.step with
      | tryAgain => simpa [videoRunAux, hstr, hstep] using ih c
      | fatal => simp [videoRunAux, hstr, hstep, c4Check]
      | pkt p =>
        obtain ⟨isIdr, hadLoss, gOk, sat⟩ := p
        cases hg : gOk
        · simp [videoRunAux, hstr, hstep, hg, c4Check]
        · subst hg
          simp only [videoRunAux, hstr, hstep, if_true]
          rw [c4Check_append, c4_pp_check, c4_pp_state, Bool.true_and]
          exact ih _

/-- Invariant of the video worker loop: its whole trace passes the C5 scan
and every iteration starts with no pending latch transition. -/
theorem c5_invariant (avoid : Bool) (iters : List VideoIter) :
    ∀ c, c5Check false (videoRunAux avoid c iters).1 = true := by
  induction iters with
  | nil => intro c; rfl
  | cons it rest ih =>
    intro c
    cases hstr : it.streaming
    · simp [videoRunAux, hstr, c5Check]
    · cases hstep : it.step with
      | tryAgain => simpa [videoRunAux, hstr, hstep] using ih c
      | fatal => simp [videoRunAux, hstr, hstep, c5Check]
      | pkt p =>
        obtain ⟨isIdr, hadLoss, gOk, sat⟩ := p
        cases hg : gOk
        · simp [videoRunAux, hstr, hstep, hg, c5Check]
        · subst hg
          simp only [videoRunAux, hstr, hstep, if_true]
          rw [c5Check_append, c5_pp_check, c5_pp_state, Bool.true_and]
          exact ih _

/-- A trace passing the C4 scan satisfies the per-push property at every
decomposition around a `pushed` entry. -/
theorem c4Check_pushes (avoid : Bool) :
    ∀ (tr : List TEntry) (clean : Bool), c4Check avoid clean tr = true →
      ∀ (pre post : List TEntry) (isIdr : Bool),
        tr = pre ++ TEntry.pushed isIdr :: post →
        (isIdr || !avoid || List.foldl c4Entry clean pre) = true := by
  intro tr
  induction tr with
  | nil =>
    intro clean _ pre post isIdr heq
    exact absurd heq (by simp)
  | cons e rest ih =>
    intro clean h pre post isIdr heq
    rw [c4Check, Bool.and_eq_true] at h
    cases pre with
    | nil =>
      simp only [List.nil_append, List.cons.injEq] at heq
      obtain ⟨he, _⟩ := heq
      subst he
      simpa [c4PushOk] using h.1
    | cons e0 pre0 =>
      simp only [List.cons_append, List.cons.injEq] at heq
      obtain ⟨he, hrest⟩ := heq
      subst he
      simpa using ih (c4Entry clean e) h.2 pre0 post isIdr hrest

/-- Without a `requestIdr` entry the C5 pending flag can only rise: if it is
false after a segment, it was false before. -/
theorem c5_pending_mono (mid : List TEntry) :
    ∀ pending, TEntry.requestIdr ∉ mid →
      List.foldl c5Entry pending mid = false → pending = false := by
  induction mid with
  | nil => intro p _ h; exact h
  | cons e rest ih =>
    intro p hni h
    have hni2 : TEntry.requestIdr ∉ rest := fun hx =>
      hni (List.mem_cons_of_mem _ hx)
    have he : e ≠ TEntry.requestIdr := fun hx =>
      hni (hx ▸ List.mem_cons_self _ _)
    have h2 := ih (c5Entry p e) hni2 h
    cases p
    · rfl
    · exfalso
      cases e <;> simp [c5Entry] at h2
      exact he rfl

/-- A trace passing the C5 scan cannot contain a latch transition followed by
a push with no `RequestIdr` in between. -/
theorem c5Check_transitions :
    ∀ (tr : List TEntry) (pending : Bool), c5Check pending tr = true →
      ∀ (pre mid post : List TEntry) (b : Bool),
        tr = pre ++ TEntry.latch false true ::
          (mid ++ TEntry.pushed b :: post) →
        TEntry.requestIdr ∈ mid := by
  intro tr
  induction tr with
  | nil =>
    intro pending _ pre mid post b heq
    exact absurd heq (by simp)
  | cons e rest ih =>
    intro pending h pre mid post b heq
    rw [c5Check, Bool.and_eq_true] at h
    cases pre with
    | nil =>
      simp only [List.nil_append, List.cons.injEq] at heq
      obtain ⟨he, hrest⟩ := heq
      subst he
      subst hrest
      -- after the transition the pending flag is true
      have hp : c5Entry pending (TEntry.latch false true) = true := rfl
      have h2 := h.2
      rw [hp, c5Check_append, Bool.and_eq_true] at h2
      have h3 := h2.2
      rw [c5Check, Bool.and_eq_true] at h3
      have h4 : List.foldl c5Entry true mid = false := by
        have h5 := h3.1
        simp only [c5PushOk, Bool.not_eq_true'] at h5
        exact h5
      by_contra hni
      exact absurd (c5_pending_mono mid true hni h4) (by simp)
    | cons e0 pre0 =>
      simp only [List.cons_append, List.cons.injEq] at heq
      obtain ⟨he, hrest⟩ := heq
      subst he
      exact ih (c5Entry pending e) h.2 pre0 mid post b hrest

/-!
## Claims
-/

/-- Claim C1 (code bug): the claim states that after `IS_STREAMING.set(true)`
no fallible operation occurs and no error return is possible until the
teardown block.  The code violates this — with game audio enabled, the
`AudioDevice::new_output(...).to_con()?` at `connection.rs` line 344 (and the
`AudioDevice::new_input(...).to_con()?` at line 361) sits after the commit
point at line 285, against the code's own comment at lines 283-284.  This
theorem evaluates the model at the failing input: the pipeline exits via the
error path with `IS_STREAMING` still true and the teardown block never
reached (no `StreamingStopped` event, no join of the already-spawned video
worker). -/
theorem c1_error_exit_after_commit :
    (connectionPipeline GlobalState.initial gaBugEnv).outcome = Outcome.err ∧
    (connectionPipeline GlobalState.initial gaBugEnv).state.isStreaming = true ∧
    Event.queued QueueEvent.streamingStopped ∉
      (connectionPipeline GlobalState.initial gaBugEnv).events ∧
    Event.join WorkerId.videoRecv ∉
      (connectionPipeline GlobalState.initial gaBugEnv).events := by
  decide

/-- Claim C2 (code bug): the claim states that on every exit path of
`connection_pipeline`, streaming is false, the four endpoint slots are empty
and every spawned worker is joined.  On the error exit through the microphone
`AudioDevice::new_input(...).to_con()?` at `connection.rs` line 361 (after the
commit point), the function returns with `IS_STREAMING` true, the control,
tracking and statistics sender slots occupied, and the already-spawned video
worker never joined; only the disconnect-notifier clearing (via `DropGuard`)
survives. -/
theorem c2_teardown_invariant_violated :
    (connectionPipeline GlobalState.initial micBugEnv).outcome = Outcome.err ∧
    (connectionPipeline GlobalState.initial micBugEnv).state.isStreaming = true ∧
    (connectionPipeline GlobalState.initial micBugEnv).state.controlSender = true ∧
    (connectionPipeline GlobalState.initial micBugEnv).state.trackingSender = true ∧
    (connectionPipeline GlobalState.initial micBugEnv).state.statisticsSender = true ∧
    (connectionPipeline GlobalState.initial micBugEnv).state.disconnectNotifier = false ∧
    Event.spawn WorkerId.videoRecv ∈
      (connectionPipeline GlobalState.initial micBugEnv).events ∧
    Event.join WorkerId.videoRecv ∉
      (connectionPipeline GlobalState.initial micBugEnv).events := by
  decide

/-- Claim C6: each negotiated field falls back to its documented default
(`0×0` view resolution, `60` Hz refresh rate, `44100` Hz audio sample rate)
when missing or mistyped, each field falls back individually (its derivation
depends only on its own key), and no content of the negotiated mapping can
abort the pipeline — with every external operation succeeding, the session
reaches streaming and returns `Ok` for every negotiated mapping. -/
theorem c6_negotiated_defaults :
    (∀ m : NegotiatedConfig,
      (List.lookup "view_resolution" m).bind deserializeUVec2 = none →
        negotiatedViewResolution m = (0, 0)) ∧
    (∀ m : NegotiatedConfig,
      (List.lookup "refresh_rate_hint" m).bind Json.asF64 = none →
        negotiatedRefreshRateHint m = 60) ∧
    (∀ m : NegotiatedConfig,
      (List.lookup "game_audio_sample_rate" m).bind Json.asU64 = none →
        negotiatedGameAudioSampleRate m = 44100) ∧
    (∀ m₁ m₂ : NegotiatedConfig,
      List.lookup "view_resolution" m₁ = List.lookup "view_resolution" m₂ →
        negotiatedViewResolution m₁ = negotiatedViewResolution m₂) ∧
    (∀ m₁ m₂ : NegotiatedConfig,
      List.lookup "refresh_rate_hint" m₁ = List.lookup "refresh_rate_hint" m₂ →
        negotiatedRefreshRateHint m₁ = negotiatedRefreshRateHint m₂) ∧
    (∀ m₁ m₂ : NegotiatedConfig,
      List.lookup "game_audio_sample_rate" m₁ = List.lookup "game_audio_sample_rate" m₂ →
        negotiatedGameAudioSampleRate m₁ = negotiatedGameAudioSampleRate m₂) ∧
    (∀ (s0 : GlobalState) (st : Settings) (neg : NegotiatedConfig),
      (connectionPipeline s0 (happyEnv st neg)).outcome = Outcome.ok) := by
  refine ⟨?_, ?_, ?_, ?_, ?_, ?_, ?_⟩
  · intro m h; simp [negotiatedViewResolution, h]
  · intro m h; simp [negotiatedRefreshRateHint, h]
  · intro m h; simp [negotiatedGameAudioSampleRate, h]
  · intro m₁ m₂ h; simp [negotiatedViewResolution, h]
  · intro m₁ m₂ h; simp [negotiatedRefreshRateHint, h]
  · intro m₁ m₂ h; simp [negotiatedGameAudioSampleRate, h]
  · intro s0 st neg
    cases hga : st.gameAudioEnabled <;> cases hmic : st.micEnabled <;>
      cases hlog : st.logReportLevelEnabled <;>
      simp [connectionPipeline, happyEnv, discoveryLoop, handleFirstPacket,
        hga, hmic, hlog]

/-- Witness for C6 at concrete inputs: the empty negotiated mapping (every
field missing) yields all three defaults, and the pipeline still reaches
streaming and returns `Ok`. -/
theorem c6_negotiated_defaults_witness :
    negotiatedViewResolution [] = (0, 0) ∧
    negotiatedRefreshRateHint [] = 60 ∧
    negotiatedGameAudioSampleRate [] = 44100 ∧
    (connectionPipeline GlobalState.initial (happyEnv sampleSettings [])).outcome
      = Outcome.ok :=
  ⟨c6_negotiated_defaults.1 [] rfl,
   c6_negotiated_defaults.2.1 [] rfl,
   c6_negotiated_defaults.2.2.1 [] rfl,
   c6_negotiated_defaults.2.2.2.2.2.2 GlobalState.initial sampleSettings []⟩

/-- Claim C7: for the single control packet received after splitting the
control socket (`connection.rs` lines 221-241), only `StartStream` proceeds to
streaming; `Restarting` yields the restart HUD message and a clean return; a
receive error yields the disconnected HUD message and a clean return; any
other packet yields the HUD message "Unexpected packet" and a clean return.
The final conjunct shows at pipeline level that every `cleanReturn` case
really returns `Ok` with the HUD message as the last event. -/
theorem c7_first_packet_dispatch :
    (∀ p : Option ServerControlPacket,
      handleFirstPacket p = .proceed ↔ p = some .startStream) ∧
    handleFirstPacket (some .restarting) = .cleanReturn SERVER_RESTART_MESSAGE ∧
    handleFirstPacket none = .cleanReturn SERVER_DISCONNECTED_MESSAGE ∧
    (∀ p : ServerControlPacket, p ≠ .startStream → p ≠ .restarting →
      handleFirstPacket (some p) = .cleanReturn "Unexpected packet") ∧
    (∀ (s0 : GlobalState) (env : Env) (cp : ConfigPacket) (neg : NegotiatedConfig)
        (msg : String),
      env.announcerNewOk = true → env.listenerOk = true →
      discoveryLoop env.discovery = .connected [] →
      env.micSampleRateOk = true → env.sendAcceptedOk = true →
      env.configPacket = some cp → cp.sessionParsesOk = true → cp.mergeOk = true →
      cp.negotiated = some neg → env.splitOk = true →
      handleFirstPacket env.firstPacket = .cleanReturn msg →
      connectionPipeline s0 env =
        ⟨{ s0 with
            statisticsManager :=
              some (smParams cp.settings (negotiatedRefreshRateHint neg))
            disconnectNotifier := false },
         [Event.hud msg], Outcome.ok⟩) := by
  refine ⟨?_, rfl, rfl, ?_, ?_⟩
  · intro p
    cases p with
    | none => simp [handleFirstPacket]
    | some q => cases q <;> simp [handleFirstPacket]
  · intro p h1 h2
    cases p with
    | startStream => exact absurd rfl h1
    | restarting => exact absurd rfl h2
    | initializeDecoder => rfl
    | keepAlive => rfl
    | otherVariant => rfl
  · intro s0 env cp neg msg hA hL hd hm hs hc hsp hmg hneg hsplit hfp
    simp [connectionPipeline, hA, hL, hd, hm, hs, hc, hsp, hmg, hneg, hsplit, hfp,
      dropGuard]

/-- Witness for C7 at a concrete input: a `Restarting` first packet gives a
clean `Ok` return with the restart HUD message as the only event, and the
`proceed` characterisation holds at `StartStream`. -/
theorem c7_first_packet_dispatch_witness :
    (handleFirstPacket (some .startStream) = .proceed ↔
      (some ServerControlPacket.startStream : Option ServerControlPacket)
        = some .startStream) ∧
    handleFirstPacket (some .keepAlive) = .cleanReturn "Unexpected packet" ∧
    connectionPipeline GlobalState.initial
        { happyEnv sampleSettings [] with firstPacket := some .restarting } =
      ⟨{ GlobalState.initial with
          statisticsManager := some (smParams sampleSettings 60)
          disconnectNotifier := false },
       [Event.hud SERVER_RESTART_MESSAGE], Outcome.ok⟩ :=
  ⟨c7_first_packet_dispatch.1 (some .startStream),
   c7_first_packet_dispatch.2.2.2.1 .keepAlive (by decide) (by decide),
   c7_first_packet_dispatch.2.2.2.2 GlobalState.initial
     { happyEnv sampleSettings [] with firstPacket := some .restarting }
     ⟨true, true, sampleSettings, some []⟩ [] SERVER_RESTART_MESSAGE
     rfl rfl (by decide) rfl rfl rfl rfl rfl rfl rfl rfl⟩

/-- Claim C8: if broadcasting the announcement packet fails while `IS_ALIVE`
is still true, `connection_pipeline` shows the "Cannot connect to the
internet" HUD message, sleeps `RETRY_CONNECT_MIN_INTERVAL` (1 s), restores the
initial HUD message, and returns `Ok` — not an error — leaving the shared
state untouched. -/
theorem c8_broadcast_failure_clean_return
    (s0 : GlobalState) (env : Env) (s : DiscStep) (rest : List DiscStep)
    (hA : env.announcerNewOk = true) (hL : env.listenerOk = true)
    (hd : env.discovery = s :: rest)
    (halive : s.alive = true) (hb : s.broadcastOk = false) :
    connectionPipeline s0 env =
      ⟨s0,
       [Event.hud NETWORK_UNREACHABLE_MESSAGE,
        Event.sleepMs RETRY_CONNECT_MIN_INTERVAL_MS,
        Event.hud INITIAL_MESSAGE],
       Outcome.ok⟩ := by
  simp [connectionPipeline, hA, hL, hd, discoveryLoop, halive, hb]

/-- Witness for C8 at a concrete input: a first discovery iteration with
`IS_ALIVE` true and a failing broadcast. -/
theorem c8_broadcast_failure_clean_return_witness :
    connectionPipeline GlobalState.initial
        { happyEnv sampleSettings [] with discovery := [⟨true, false, false⟩] } =
      ⟨GlobalState.initial,
       [Event.hud NETWORK_UNREACHABLE_MESSAGE,
        Event.sleepMs RETRY_CONNECT_MIN_INTERVAL_MS,
        Event.hud INITIAL_MESSAGE],
       Outcome.ok⟩ :=
  c8_broadcast_failure_clean_return GlobalState.initial
    { happyEnv sampleSettings [] with discovery := [⟨true, false, false⟩] }
    ⟨true, false, false⟩ [] rfl rfl rfl rfl rfl

/-- Claim C9 (implicit): if the session blob is not valid JSON, or fails to
merge, or the negotiated blob is not valid JSON, `connection_pipeline` aborts
with an `Err` before any stream setup (no events are emitted beyond discovery,
no worker is spawned, the shared state is untouched except for the
notifier slot cleared by the drop guard), and the supervisor surfaces the
error as a "Connection error" HUD message. -/
theorem c9_blob_parse_failure_aborts
    (s0 : GlobalState) (env : Env) (cp : ConfigPacket) (evs : List Event)
    (hA : env.announcerNewOk = true) (hL : env.listenerOk = true)
    (hd : discoveryLoop env.discovery = .connected evs)
    (hm : env.micSampleRateOk = true) (hs : env.sendAcceptedOk = true)
    (hc : env.configPacket = some cp)
    (hbad : cp.sessionParsesOk = false ∨ cp.mergeOk = false ∨
      cp.negotiated = none) :
    connectionPipeline s0 env =
      ⟨{ s0 with disconnectNotifier := false }, [], Outcome.err⟩ ∧
    supervisorShowsConnectionError (connectionPipeline s0 env).outcome = true := by
  have hevs := discovery_connected_nil env.discovery evs hd
  subst hevs
  have hmain : connectionPipeline s0 env =
      ⟨{ s0 with disconnectNotifier := false }, [], Outcome.err⟩ := by
    rcases hbad with h | h | h
    · simp [connectionPipeline, hA, hL, hd, hm, hs, hc, h, dropGuard]
    · cases hsp : cp.sessionParsesOk <;>
        simp [connectionPipeline, hA, hL, hd, hm, hs, hc, h, hsp, dropGuard]
    · cases hsp : cp.sessionParsesOk <;> cases hmg : cp.mergeOk <;>
        simp [connectionPipeline, hA, hL, hd, hm, hs, hc, h, hsp, hmg, dropGuard]
  exact ⟨hmain, by rw [hmain]; rfl⟩

/-- Witness for C9 at a concrete input: a config packet whose session blob
fails to parse. -/
theorem c9_blob_parse_failure_aborts_witness :
    connectionPipeline GlobalState.initial
        { happyEnv sampleSettings [] with
            configPacket := some ⟨false, true, sampleSettings, some []⟩ } =
      ⟨{ GlobalState.initial with disconnectNotifier := false }, [],
        Outcome.err⟩ ∧
    supervisorShowsConnectionError
      (connectionPipeline GlobalState.initial
        { happyEnv sampleSettings [] with
            configPacket := some ⟨false, true, sampleSettings, some []⟩ }).outcome
      = true :=
  c9_blob_parse_failure_aborts GlobalState.initial
    { happyEnv sampleSettings [] with
        configPacket := some ⟨false, true, sampleSettings, some []⟩ }
    ⟨false, true, sampleSettings, some []⟩ []
    rfl rfl (by decide) rfl rfl rfl (Or.inl rfl)

/-- Claim C10 (implicit): `connection_pipeline` installs a fresh
`StatisticsManager` before the first control packet is checked, and teardown
never clears that slot.  First conjunct: a session that aborts on the first
control packet (Restarting, receive error, or unexpected packet) still leaves
the fresh manager installed.  Second conjunct: after a full committed session,
the manager is still installed while the four endpoint slots are empty and
streaming is false. -/
theorem c10_statistics_manager_persistence :
    (∀ (s0 : GlobalState) (env : Env) (cp : ConfigPacket) (neg : NegotiatedConfig)
        (msg : String),
      env.announcerNewOk = true → env.listenerOk = true →
      discoveryLoop env.discovery = .connected [] →
      env.micSampleRateOk = true → env.sendAcceptedOk = true →
      env.configPacket = some cp → cp.sessionParsesOk = true → cp.mergeOk = true →
      cp.negotiated = some neg → env.splitOk = true →
      handleFirstPacket env.firstPacket = .cleanReturn msg →
      (connectionPipeline s0 env).state.statisticsManager =
        some (smParams cp.settings (negotiatedRefreshRateHint neg))) ∧
    (∀ (s0 : GlobalState) (env : Env) (cp : ConfigPacket) (neg : NegotiatedConfig),
      env.announcerNewOk = true → env.listenerOk = true →
      discoveryLoop env.discovery = .connected [] →
      env.micSampleRateOk = true → env.sendAcceptedOk = true →
      env.configPacket = some cp → cp.sessionParsesOk = true → cp.mergeOk = true →
      cp.negotiated = some neg → env.splitOk = true →
      env.firstPacket = some .startStream →
      env.streamBuilderOk = true → env.sendStreamReadyOk = true →
      env.acceptStreamOk = true →
      (cp.settings.gameAudioEnabled = true → env.gameAudioDeviceOk = true) →
      (cp.settings.micEnabled = true → env.micDeviceOk = true) →
      (connectionPipeline s0 env).state.statisticsManager =
          some (smParams cp.settings (negotiatedRefreshRateHint neg)) ∧
        (connectionPipeline s0 env).state.isStreaming = false ∧
        (connectionPipeline s0 env).state.controlSender = false ∧
        (connectionPipeline s0 env).state.logChannelSender = false ∧
        (connectionPipeline s0 env).state.trackingSender = false ∧
        (connectionPipeline s0 env).state.statisticsSender = false) := by
  constructor
  · intro s0 env cp neg msg hA hL hd hm hs hc hsp hmg hneg hsplit hfp
    simp [connectionPipeline, hA, hL, hd, hm, hs, hc, hsp, hmg, hneg, hsplit, hfp,
      dropGuard]
  · intro s0 env cp neg hA hL hd hm hs hc hsp hmg hneg hsplit hfp hsb hsr hacc
      hgaOk hmicOk
    have hfpp : handleFirstPacket env.firstPacket = .proceed := by
      rw [hfp]; rfl
    have hgaC : (cp.settings.gameAudioEnabled && !env.gameAudioDeviceOk) = false := by
      cases h : cp.settings.gameAudioEnabled
      · rfl
      · simp [hgaOk h]
    have hmicC : (cp.settings.micEnabled && !env.micDeviceOk) = false := by
      cases h : cp.settings.micEnabled
      · rfl
      · simp [hmicOk h]
    cases hlog : cp.settings.logReportLevelEnabled <;>
      simp [connectionPipeline, hA, hL, hd, hm, hs, hc, hsp, hmg, hneg,
        hsplit, hfpp, hsb, hsr, hacc, hgaC, hmicC, hlog, dropGuard]

/-- Witness for C10 at concrete inputs: a session aborted by `Restarting`
leaves the fresh statistics manager installed; a full committed session leaves
it installed with all four endpoint slots empty. -/
theorem c10_statistics_manager_persistence_witness :
    (connectionPipeline GlobalState.initial
      { happyEnv sampleSettings [] with
          firstPacket := some .restarting }).state.statisticsManager =
        some (smParams sampleSettings (negotiatedRefreshRateHint [])) ∧
    ((connectionPipeline GlobalState.initial
        (happyEnv sampleSettings [])).state.statisticsManager =
      some (smParams sampleSettings (negotiatedRefreshRateHint [])) ∧
    (connectionPipeline GlobalState.initial
      (happyEnv sampleSettings [])).state.isStreaming = false ∧
    (connectionPipeline GlobalState.initial
      (happyEnv sampleSettings [])).state.controlSender = false ∧
    (connectionPipeline GlobalState.initial
      (happyEnv sampleSettings [])).state.logChannelSender = false ∧
    (connectionPipeline GlobalState.initial
      (happyEnv sampleSettings [])).state.trackingSender = false ∧
    (connectionPipeline GlobalState.initial
      (happyEnv sampleSettings [])).state.statisticsSender = false) :=
  ⟨c10_statistics_manager_persistence.1 GlobalState.initial
      { happyEnv sampleSettings [] with firstPacket := some .restarting }
      ⟨true, true, sampleSettings, some []⟩ [] SERVER_RESTART_MESSAGE
      rfl rfl (by decide) rfl rfl rfl rfl rfl rfl rfl rfl,
   c10_statistics_manager_persistence.2 GlobalState.initial
      (happyEnv sampleSettings [])
      ⟨true, true, sampleSettings, some []⟩ []
      rfl rfl (by decide) rfl rfl rfl rfl rfl rfl rfl rfl rfl rfl rfl
      (fun h => rfl) (fun h => rfl)⟩

theorem videoProcessPacket_no_notifier (avoid c isIdr hadLoss gOk sat : Bool) :
    TEntry.firedNotifier ∉
      (videoProcessPacket avoid c ⟨isIdr, hadLoss, gOk, sat⟩).2 := by
  cases avoid <;> cases c <;> cases isIdr <;> cases hadLoss <;> cases gOk <;>
    cases sat <;> decide

/-- The video receive worker never touches the disconnect notifier: on no
input does its trace contain a `firedNotifier` action. -/
theorem videoRun_no_notifier (avoid : Bool) (iters : List VideoIter) :
    ∀ c, TEntry.firedNotifier ∉ (videoRunAux avoid c iters).1 := by
  induction iters with
  | nil => intro c; simp [videoRunAux]
  | cons it rest ih =>
    intro c
    cases hstr : it.streaming
    · simp [videoRunAux, hstr]
    · cases hstep : it.step with
      | tryAgain => simpa [videoRunAux, hstr, hstep] using ih c
      | fatal => simp [videoRunAux, hstr, hstep]
      | pkt p =>
        obtain ⟨isIdr, hadLoss, gOk, sat⟩ := p
        cases hg : gOk
        · simp [videoRunAux, hstr, hstep, hg]
        · subst hg
          simp only [videoRunAux, hstr, hstep, if_true]
          intro hmem
          rw [List.mem_append] at hmem
          rcases hmem with hm | hm
          · exact videoProcessPacket_no_notifier avoid c isIdr hadLoss true sat hm
          · exact ih _ hm

/-- The haptics receive worker never touches the disconnect notifier. -/
theorem hapticsRun_no_notifier (iters : List HapticsIter) :
    TEntry.firedNotifier ∉ (hapticsRun iters).1 := by
  induction iters with
  | nil => simp [hapticsRun]
  | cons it rest ih =>
    cases hstr : it.streaming
    · simp [hapticsRun, hstr]
    · cases hstep : it.step with
      | tryAgain => simpa [hapticsRun, hstr, hstep] using ih
      | fatal => simp [hapticsRun, hstr, hstep]
      | pkt ok =>
        cases ok
        · simp [hapticsRun, hstr, hstep]
        · simp only [hapticsRun, hstr, hstep, if_true]
          intro hmem
          rcases List.mem_cons.mp hmem with hm | hm
          · exact absurd hm (by decide)
          · exact ih hm

/-- Claim C3 counterexample: the claim says every worker fires the disconnect
notifier before exiting on a fatal (non-timeout) transport error.  The video
receive worker does not: at the concrete input where streaming is on and the
receive returns a fatal error, the worker exits with `fatalTransport` and its
trace contains no notifier action (`connection.rs` line 306 is a bare
`return`). -/
theorem c3_video_fatal_no_notifier :
    (videoRun true [⟨true, .fatal⟩]).2 = WorkerExit.fatalTransport ∧
    TEntry.firedNotifier ∉ (videoRun true [⟨true, .fatal⟩]).1 := by
  decide

/-- Claim C3 (amended): for the three receive workers modelled from the cited
code, every execution exits only because streaming became false, or
immediately on a fatal transport error (or a packet-parse failure, or — for
the control receive worker — a `Restarting` packet), and a timeout
(`TryAgain`) never exits the loop; but only the control receive worker fires
the disconnect notifier before a fatal-error or restart exit — the video and
haptics receive workers exit silently without firing it. -/
theorem c3_worker_termination_amended :
    (∀ (avoid c : Bool) (rest : List VideoIter),
      videoRunAux avoid c (⟨true, .tryAgain⟩ :: rest) = videoRunAux avoid c rest) ∧
    (∀ (avoid c : Bool) (rest : List VideoIter),
      videoRunAux avoid c (⟨true, .fatal⟩ :: rest) = ([], .fatalTransport)) ∧
    (∀ (avoid c : Bool) (st : VideoStep) (rest : List VideoIter),
      videoRunAux avoid c (⟨false, st⟩ :: rest) = ([], .streamingOff)) ∧
    (∀ (avoid : Bool) (iters : List VideoIter),
      TEntry.firedNotifier ∉ (videoRun avoid iters).1) ∧
    (∀ rest : List HapticsIter,
      hapticsRun (⟨true, .tryAgain⟩ :: rest) = hapticsRun rest) ∧
    (∀ rest : List HapticsIter,
      hapticsRun (⟨true, .fatal⟩ :: rest) = ([], .fatalTransport)) ∧
    (∀ (st : HapticsStep) (rest : List HapticsIter),
      hapticsRun (⟨false, st⟩ :: rest) = ([], .streamingOff)) ∧
    (∀ iters : List HapticsIter, TEntry.firedNotifier ∉ (hapticsRun iters).1) ∧
    (∀ rest : List CtrlRecvIter,
      controlRecvRun (⟨true, .tryAgain⟩ :: rest) = controlRecvRun rest) ∧
    (∀ rest : List CtrlRecvIter,
      controlRecvRun (⟨true, .fatal⟩ :: rest) =
        ([TEntry.hud SERVER_DISCONNECTED_MESSAGE, TEntry.firedNotifier],
         .fatalTransport)) ∧
    (∀ rest : List CtrlRecvIter,
      controlRecvRun (⟨true, .pkt .restarting⟩ :: rest) =
        ([TEntry.hud SERVER_RESTART_MESSAGE, TEntry.firedNotifier],
         .restartExit)) ∧
    (∀ (st : CtrlRecvStep) (rest : List CtrlRecvIter),
      controlRecvRun (⟨false, st⟩ :: rest) = ([], .streamingOff)) := by
  refine ⟨fun a c r => rfl, fun a c r => rfl, fun a c st r => rfl,
    fun a iters => videoRun_no_notifier a iters false,
    fun r => rfl, fun r => rfl, fun st r => rfl,
    hapticsRun_no_notifier,
    fun r => rfl, fun r => rfl, fun r => rfl, fun st r => rfl⟩

/-- Claim C4: for every packet the video worker pushes to the decoder via
`push_nal` — every `pushed` entry in its trace, at every decomposition
`trace = pre ++ pushed isIdr :: post` — either the packet is an IDR, or
`avoid_video_glitching` is off, or since the last IDR (or session start) no
packet carried a loss flag and no decoder saturation occurred (the C4 scan of
the preceding trace is clean). -/
theorem c4_push_requires_clean_or_optout (avoid : Bool) (iters : List VideoIter)
    (pre post : List TEntry) (isIdr : Bool)
    (h : (videoRun avoid iters).1 = pre ++ TEntry.pushed isIdr :: post) :
    isIdr = true ∨ avoid = false ∨ List.foldl c4Entry true pre = true := by
  have hc := c4_invariant avoid iters false
  have hp := c4Check_pushes avoid (videoRunAux avoid false iters).1 (!false) hc
    pre post isIdr h
  simpa [Bool.or_eq_true, Bool.not_eq_true', or_assoc] using hp

/-- Witness for C4 at a concrete input: a single clean non-IDR packet with
glitch avoidance on is pushed, and the scan of the trace before the push is
clean. -/
theorem c4_push_requires_clean_or_optout_witness :
    false = true ∨ true = false ∨
      List.foldl c4Entry true
        [TEntry.packetMeta false false, TEntry.statsReported] = true :=
  c4_push_requires_clean_or_optout true
    [⟨true, .pkt ⟨false, false, true, false⟩⟩]
    [TEntry.packetMeta false false, TEntry.statsReported] [] false (by decide)

/-- Claim C5: for every `false → true` transition of the `stream_corrupted`
latch in the video worker's trace, at least one `RequestIdr` is sent after the
transition and before the next packet is pushed to the decoder: in every
decomposition `trace = pre ++ latch false true :: (mid ++ pushed b :: post)`,
the segment `mid` between the transition and the next push contains a
`requestIdr` action. -/
theorem c5_transition_requestidr_before_push (avoid : Bool)
    (iters : List VideoIter) (pre mid post : List TEntry) (b : Bool)
    (h : (videoRun avoid iters).1 =
      pre ++ TEntry.latch false true :: (mid ++ TEntry.pushed b :: post)) :
    TEntry.requestIdr ∈ mid :=
  c5Check_transitions (videoRunAux avoid false iters).1 false
    (c5_invariant avoid iters false) pre mid post b h

/-- Witness for C5 at a concrete input: a lost non-IDR packet with glitch
avoidance off causes the latch transition, and the `RequestIdr` sits between
the transition and the push of that same packet. -/
theorem c5_transition_requestidr_before_push_witness :
    TEntry.requestIdr ∈ [TEntry.requestIdr] :=
  c5_transition_requestidr_before_push false
    [⟨true, .pkt ⟨false, true, true, false⟩⟩]
    [TEntry.packetMeta false true, TEntry.statsReported]
    [TEntry.requestIdr] [] false (by decide)

end AlvrConnection
